import Mathlib

/-!
Shallow embedding of the sleep-health ingestion-and-aggregation engine
(backend/app.py and backend/importer.py of the repository).

Modelling conventions:
* Python floats are modelled as rationals; `round(x, k)` is modelled by
  rounding to the nearest multiple of 10 ^ (-k).  The two conventions differ
  only on exact half-way ties, which none of the proved properties depend on.
* Timezone-aware datetimes are modelled by their absolute epoch second
  (Python compares aware datetimes by absolute time) together with the local
  calendar-date string that `.date().isoformat()` yields.
* The global mutable module state (`nights`, `summary_cache`) is modelled by
  an explicit `AppState` record threaded through the operations.
-/

namespace SleepInsight

/-- Does `hay` start with `needle`?  (Helper for Python's `in` on strings.) -/
def matchesAt : List Char → List Char → Bool
  | [], _ => true
  | _ :: _, [] => false
  | a :: as, b :: bs => a == b && matchesAt as bs

/-- Python `needle in hay` substring test, over character lists. -/
def containsSub : List Char → List Char → Bool
  | [], needle => matchesAt needle []
  | h :: t, needle => matchesAt needle (h :: t) || containsSub t needle

/-- Python `s.upper()` as a character list. -/
def upperChars (s : String) : List Char := s.toList.map Char.toUpper

/-- backend/app.py `map_stage` (lines 158-177): map an Apple Health sleep
category value into a coarse stage by case-insensitive substring match, in
the order REM, DEEP, CORE, ASLEEP, defaulting to ASLEEP. -/
def map_stage (value_str : Option String) : String :=
  match value_str with
  | none => "ASLEEP"
  | some s =>
    if s = "" then "ASLEEP"
    else
      let v := upperChars s
      if containsSub v ("REM".toList) then "ASLEEP_REM"
      else if containsSub v ("DEEP".toList) then "ASLEEP_DEEP"
      else if containsSub v ("CORE".toList) then "ASLEEP_CORE"
      else if containsSub v ("ASLEEP".toList) then "ASLEEP"
      else "ASLEEP"

/-- backend/importer.py `SLEEP_VALUE_MAP` (lines 21-28): the numeric
category-code dictionary. -/
def SLEEP_VALUE_MAP : String → Option String := fun v =>
  if v = "0" then some "INBED"
  else if v = "1" then some "ASLEEP"
  else if v = "2" then some "AWARENESS"
  else if v = "3" then some "ASLEEP_CORE"
  else if v = "4" then some "ASLEEP_DEEP"
  else if v = "5" then some "ASLEEP_REM"
  else none

/-- backend/importer.py line 65: `SLEEP_VALUE_MAP.get(value or "", "ASLEEP")`. -/
def importer_stage (value : Option String) : String :=
  (SLEEP_VALUE_MAP (value.getD "")).getD "ASLEEP"

/-- A timezone-aware datetime: absolute epoch second plus the local calendar
date (what `.date().isoformat()` returns for it). -/
structure Datetime where
  epoch : ℤ
  localDate : String
deriving DecidableEq

/-- A parsed sleep record `(start_dt, end_dt, stage)`.  The end timestamp is
named `stop` because `end` is reserved in Lean. -/
structure SleepSegment where
  start : Datetime
  stop : Datetime
  stage : String
deriving DecidableEq

/-- A vital-sign point `(start_dt, float(value))`. -/
structure VitalPoint where
  ts : Datetime
  val : ℚ
deriving DecidableEq

/-- One entry of the global `nights` list (backend/app.py lines 290-301). -/
structure NightAggregate where
  date : String
  total_sleep_hours : ℚ
  rem_sleep_hours : ℚ
  nonrem_sleep_hours : ℚ
  rem_percentage : Option ℚ
  avg_hr : Option ℚ
  avg_hrv : Option ℚ
  avg_resp : Option ℚ
deriving DecidableEq

/-- One bucket of `nights_map` (backend/app.py lines 236-244). -/
structure NightRaw where
  segments : List SleepSegment
  hr : List ℚ
  hrv : List ℚ
  resp : List ℚ
deriving DecidableEq

/-- The dict `nights_map`: an insertion-ordered dictionary keyed by date string. -/
abbrev NightsMap := List (String × NightRaw)

/-- The bucket `nb` creates on first access (backend/app.py lines 236-244). -/
def emptyRaw : NightRaw := ⟨[], [], [], []⟩

/-- Python `nb(date)` followed by a mutation of the bucket: update the bucket in
place if the key exists, otherwise append a fresh mutated bucket (Python
dicts preserve insertion order). -/
def addToBucket : NightsMap → String → (NightRaw → NightRaw) → NightsMap
  | [], d, f => [(d, f emptyRaw)]
  | (k, r) :: t, d, f =>
    if k = d then (k, f r) :: t else (k, r) :: addToBucket t d f

/-- Dictionary lookup in `nights_map`. -/
def lookupN : NightsMap → String → Option NightRaw
  | [], _ => none
  | (k, r) :: t, q => if k = q then some r else lookupN t q

/-- backend/app.py line 231: `s[2] and "ASLEEP" in s[2]`. -/
def asleepB (s : SleepSegment) : Bool :=
  (s.stage != "") && containsSub s.stage.toList ("ASLEEP".toList)

/-- backend/app.py line 274: `stage and "REM" in stage`. -/
def stageIsRem (stage : String) : Bool :=
  (stage != "") && containsSub stage.toList ("REM".toList)

/-- backend/app.py line 272: `(s_end - s_start).total_seconds() / 3600.0`. -/
def segDur (s : SleepSegment) : ℚ :=
  ((s.stop.epoch - s.start.epoch : ℤ) : ℚ) / 3600

/-- backend/app.py line 255: `s_start <= ts <= s_end` (aware datetimes
compare by absolute time). -/
def inSegB (s : SleepSegment) (ts : Datetime) : Bool :=
  decide (s.start.epoch ≤ ts.epoch) && decide (ts.epoch ≤ s.stop.epoch)

/-- Append a segment to a bucket's `segments` list. -/
def pushSeg (s : SleepSegment) (r : NightRaw) : NightRaw :=
  { r with segments := r.segments ++ [s] }

/-- Append a heart-rate value to a bucket. -/
def pushHr (v : ℚ) (r : NightRaw) : NightRaw := { r with hr := r.hr ++ [v] }

/-- Append an HRV value to a bucket. -/
def pushHrv (v : ℚ) (r : NightRaw) : NightRaw := { r with hrv := r.hrv ++ [v] }

/-- Append a respiratory-rate value to a bucket. -/
def pushResp (v : ℚ) (r : NightRaw) : NightRaw := { r with resp := r.resp ++ [v] }

/-- The inner loop of `assign_points` (backend/app.py lines 253-258): scan
the asleep segments in emission order and stop at the first one whose
interval contains the point. -/
def findSeg (asleep : List SleepSegment) (ts : Datetime) : Option SleepSegment :=
  asleep.find? (fun s => inSegB s ts)

/-- Process one vital point: attribute it to the night of the first
containing segment's start date, or drop it if no segment contains it. -/
def assignPoint (asleep : List SleepSegment) (upd : ℚ → NightRaw → NightRaw)
    (m : NightsMap) (p : VitalPoint) : NightsMap :=
  match findSeg asleep p.ts with
  | some s => addToBucket m s.start.localDate (upd p.val)
  | none => m

/-- backend/app.py `assign_points` (lines 252-258). -/
def assign_points (asleep : List SleepSegment) (upd : ℚ → NightRaw → NightRaw)
    (pts : List VitalPoint) (m : NightsMap) : NightsMap :=
  pts.foldl (assignPoint asleep upd) m

/-- backend/app.py lines 247-249: add each asleep segment to its night's
bucket, keyed by the segment's own start date. -/
def bucketSegments (asleep : List SleepSegment) : NightsMap :=
  asleep.foldl (fun m s => addToBucket m s.start.localDate (pushSeg s)) []

/-- One iteration of the duration loop (backend/app.py lines 271-277),
accumulating (total, rem, non_rem) hours. -/
def durStep (acc : ℚ × ℚ × ℚ) (s : SleepSegment) : ℚ × ℚ × ℚ :=
  let d := segDur s
  if stageIsRem s.stage then (acc.1 + d, acc.2.1 + d, acc.2.2)
  else (acc.1 + d, acc.2.1, acc.2.2 + d)

/-- The duration sums of one bucket. -/
def sumDurs (segs : List SleepSegment) : ℚ × ℚ × ℚ := segs.foldl durStep (0, 0, 0)

/-- Python `sum(vals)/len(vals) if vals else None`. -/
def avgQ (l : List ℚ) : Option ℚ :=
  if l.isEmpty then none else some (l.sum / l.length)

/-- Collapse one bucket of `nights_map` into a night entry
(backend/app.py lines 266-301). -/
def reduceNight (date : String) (r : NightRaw) : NightAggregate :=
  let t := sumDurs r.segments
  { date := date
    total_sleep_hours := t.1
    rem_sleep_hours := t.2.1
    nonrem_sleep_hours := t.2.2
    rem_percentage := if 0 < t.1 then some (t.2.1 / t.1 * 100) else none
    avg_hr := avgQ r.hr
    avg_hrv := avgQ r.hrv
    avg_resp := avgQ r.resp }

/-- The aggregation phases over the already-filtered asleep segments
(backend/app.py lines 233-301). -/
def aggregate (asleep : List SleepSegment) (hrP hrvP respP : List VitalPoint) :
    List NightAggregate :=
  let m0 := bucketSegments asleep
  let m1 := assign_points asleep pushHr hrP m0
  let m2 := assign_points asleep pushHrv hrvP m1
  let m3 := assign_points asleep pushResp respP m2
  m3.map fun kv => reduceNight kv.1 kv.2

/-- The aggregation half of `parse_apple_health_sleep_xml_stream`
(backend/app.py lines 230-301), as a function of the collected raw record
lists: filter to asleep segments, then aggregate. -/
def computeNights (segs : List SleepSegment) (hrP hrvP respP : List VitalPoint) :
    List NightAggregate :=
  aggregate (segs.filter asleepB) hrP hrvP respP

/-- Python `round(q, 1)`. -/
def round1 (q : ℚ) : ℚ := ((round (q * 10) : ℤ) : ℚ) / 10

/-- Python `round(q, 2)`. -/
def round2 (q : ℚ) : ℚ := ((round (q * 100) : ℤ) : ℚ) / 100

/-- The dict returned by `compute_sleep_summary` (backend/app.py lines
115-122).  Its fields are exactly the six keys of that dict. -/
structure Summary where
  nights : ℕ
  avg_total_sleep : ℚ
  avg_hr : Option ℚ
  avg_hrv : Option ℚ
  avg_resp_rate : Option ℚ
  avg_rem_pct : Option ℚ
deriving DecidableEq

/-- backend/app.py `safe_avg` (lines 104-108). -/
def safe_avg (ns : List NightAggregate) (f : NightAggregate → Option ℚ) : Option ℚ :=
  let vals := ns.filterMap f
  if vals.isEmpty then none else some (vals.sum / vals.length)

/-- backend/app.py `compute_sleep_summary` (lines 93-122).  The code
returns the empty dict `{}` for an empty nights list, which every reader
treats as "no data"; that falsy value is modelled as `none`. -/
def compute_sleep_summary (ns : List NightAggregate) : Option Summary :=
  if ns.isEmpty then none
  else some
    { nights := ns.length
      avg_total_sleep := round2 ((ns.map fun n => n.total_sleep_hours).sum / ns.length)
      avg_hr := (safe_avg ns fun n => n.avg_hr).map round1
      avg_hrv := (safe_avg ns fun n => n.avg_hrv).map round1
      avg_resp_rate := (safe_avg ns fun n => n.avg_resp).map round1
      avg_rem_pct := (safe_avg ns fun n => n.rem_percentage).map round1 }

/-- backend/app.py line 79. -/
def MAX_NIGHTS : ℕ := 30

/-- Stable insertion used to model Python's `sorted(nights, key=date)`. -/
def insertByDate (n : NightAggregate) : List NightAggregate → List NightAggregate
  | [] => [n]
  | m :: t => if n.date < m.date then n :: m :: t else m :: insertByDate n t

/-- Python `sorted(nights, key=lambda n: n["date"])`. -/
def sortNightsByDate (l : List NightAggregate) : List NightAggregate :=
  l.foldr insertByDate []

/-- backend/app.py `get_recent_nights` (lines 82-90): sort ascending by
date and keep the last `MAX_NIGHTS` entries. -/
def get_recent_nights (nightsList : List NightAggregate) : List NightAggregate :=
  if nightsList.isEmpty then []
  else
    let sorted := sortNightsByDate nightsList
    sorted.drop (sorted.length - MAX_NIGHTS)

/-- Per-night duration component (backend/app.py lines 421-429). -/
def durationScoreNight (d : ℚ) : ℚ :=
  if 7 ≤ d ∧ d ≤ 9 then 100
  else max 30 (100 - min (|d - 8| * 10) 70)

/-- Duration component: mean of the per-night scores (lines 420-431). -/
def durationScore (recent : List NightAggregate) : ℚ :=
  let scores := recent.map fun n => durationScoreNight n.total_sleep_hours
  scores.sum / scores.length

/-- Regularity component (backend/app.py lines 433-444).  The code compares
`std_dev = variance ** 0.5` with 0.5 and 1.5; since the square root is
monotone and the population variance is nonnegative, this is the same as
comparing the variance with 1/4 and 9/4, which keeps the model rational. -/
def regularityScore (recent : List NightAggregate) : ℚ :=
  let durations := recent.map fun n => n.total_sleep_hours
  let mean := durations.sum / durations.length
  let variance := (durations.map fun d => ((d - mean) ^ 2 : ℚ)).sum / durations.length
  if variance < 1/4 then 100
  else if variance < 9/4 then 85
  else 70

/-- Heart-rate component (backend/app.py lines 446-456). -/
def hrScore (recent : List NightAggregate) : ℚ :=
  let vals := recent.filterMap fun n => n.avg_hr
  if vals.isEmpty then 75
  else
    let a := vals.sum / vals.length
    if 50 ≤ a ∧ a ≤ 70 then 100
    else max 60 (100 - min (|a - 60| * 2) 40)

/-- HRV component (backend/app.py lines 458-469). -/
def hrvScore (recent : List NightAggregate) : ℚ :=
  let vals := recent.filterMap fun n => n.avg_hrv
  if vals.isEmpty then 75
  else
    let a := vals.sum / vals.length
    if 60 ≤ a then 100
    else if 40 ≤ a then 85
    else 70

/-- Respiratory-rate component (backend/app.py lines 471-481). -/
def respScore (recent : List NightAggregate) : ℚ :=
  let vals := recent.filterMap fun n => n.avg_resp
  if vals.isEmpty then 75
  else
    let a := vals.sum / vals.length
    if 12 ≤ a ∧ a ≤ 18 then 100
    else max 60 (100 - min (|a - 15| * 3) 40)

/-- The weighted combination before rounding (backend/app.py lines 484-490). -/
def sleepScoreRaw (recent : List NightAggregate) : ℚ :=
  40/100 * durationScore recent + 20/100 * regularityScore recent
    + 15/100 * hrScore recent + 15/100 * hrvScore recent
    + 10/100 * respScore recent

/-- Python `final_score = round(final_score, 1)` (backend/app.py line 492). -/
def sleep_score (recent : List NightAggregate) : ℚ := round1 (sleepScoreRaw recent)

/-- The numeric part of the `/sleep-score` response (lines 503-515). -/
structure ScoreBreakdown where
  sleep_score : ℚ
  duration_score : ℚ
  regularity_score : ℚ
  hr_score : ℚ
  hrv_score : ℚ
  resp_score : ℚ
deriving DecidableEq

/-- Build the score response from the rolling window. -/
def scoreBreakdown (recent : List NightAggregate) : ScoreBreakdown :=
  { sleep_score := sleep_score recent
    duration_score := round1 (durationScore recent)
    regularity_score := round1 (regularityScore recent)
    hr_score := round1 (hrScore recent)
    hrv_score := round1 (hrvScore recent)
    resp_score := round1 (respScore recent) }

/-- The process-wide mutable module state of backend/app.py: the global
`nights` list and `summary_cache`. -/
structure AppState where
  nights : List NightAggregate
  summary_cache : Option Summary
deriving DecidableEq

/-- Module state at import time (lines 77-78). -/
def initialState : AppState := { nights := [], summary_cache := none }

/-- The classified record lists one parsed stream yields. -/
structure IngestData where
  segs : List SleepSegment
  hrP : List VitalPoint
  hrvP : List VitalPoint
  respP : List VitalPoint

/-- Function `parse_apple_health_sleep_xml_stream` as a state transition: it first
executes `global nights; nights = []` (lines 137-138) and then rebuilds
`nights` from the stream's records alone. -/
def parse_stream (st : AppState) (d : IngestData) : AppState :=
  let st1 := { st with nights := ([] : List NightAggregate) }
  { st1 with nights := computeNights d.segs d.hrP d.hrvP d.respP }

/-- The successful path of `upload` (backend/app.py lines 350-367): parse,
then recompute and cache the summary. -/
def upload_ok (st : AppState) (d : IngestData) : AppState :=
  let st2 := parse_stream st d
  { st2 with summary_cache := compute_sleep_summary st2.nights }

/-- The two ingest-level failures of `upload`. -/
inductive IngestError
  | UnsupportedSource
  | ParseFailure
deriving DecidableEq

/-- The three input shapes `upload` distinguishes. -/
inductive UploadInput
  | zipNoExport
  | malformed
  | wellFormed (d : IngestData)

/-- backend/app.py `upload` (lines 313-367) as a state transition.
* A ZIP with no `export.xml` entry raises at line 334, before the parser
  runs, so the state is untouched.
* An unparseable stream raises inside `parse_apple_health_sleep_xml_stream`
  after line 138 has already reset the global `nights`; the exception is
  re-raised at line 354, so `summary_cache` keeps its previous value.
* Otherwise both `nights` and `summary_cache` are rebuilt. -/
def upload : AppState → UploadInput → AppState × Option IngestError
  | st, .zipNoExport => (st, some .UnsupportedSource)
  | st, .malformed => ({ st with nights := [] }, some .ParseFailure)
  | st, .wellFormed d => (upload_ok st d, none)

/-- backend/app.py `get_summary` (lines 370-380): `none` models the
HTTP 400 "no data" response. -/
def get_summary (st : AppState) : Option Summary := st.summary_cache

/-- backend/app.py `get_nights_timeseries` (lines 383-397). -/
def get_nights (st : AppState) : Option (List NightAggregate) :=
  let recent := get_recent_nights st.nights
  if recent.isEmpty then none else some recent

/-- backend/app.py `sleep_score` endpoint (lines 404-515). -/
def get_score (st : AppState) : Option ScoreBreakdown :=
  let recent := get_recent_nights st.nights
  if recent.isEmpty then none else some (scoreBreakdown recent)

/-! ### Generic helper lemmas -/

lemma lengthQ_pos {α : Type} (l : List α) (h : l ≠ []) : (0 : ℚ) < l.length := by
  have := List.length_pos.mpr h
  exact_mod_cast this

lemma mul_length_le_sum : ∀ (l : List ℚ) (a : ℚ), (∀ x ∈ l, a ≤ x) → a * l.length ≤ l.sum
  | [], a, _ => by simp
  | x :: t, a, h => by
    have ih := mul_length_le_sum t a (fun y hy => h y (List.mem_cons_of_mem x hy))
    have hx := h x (List.mem_cons_self x t)
    have hexp : a * ((x :: t).length : ℚ) = a * (t.length : ℚ) + a := by
      push_cast [List.length_cons]
      ring
    rw [List.sum_cons, hexp]
    linarith

lemma sum_le_mul_length : ∀ (l : List ℚ) (b : ℚ), (∀ x ∈ l, x ≤ b) → l.sum ≤ b * l.length
  | [], b, _ => by simp
  | x :: t, b, h => by
    have ih := sum_le_mul_length t b (fun y hy => h y (List.mem_cons_of_mem x hy))
    have hx := h x (List.mem_cons_self x t)
    have hexp : b * ((x :: t).length : ℚ) = b * (t.length : ℚ) + b := by
      push_cast [List.length_cons]
      ring
    rw [List.sum_cons, hexp]
    linarith

lemma mean_bounds (l : List ℚ) (a b : ℚ) (hl : l ≠ [])
    (h1 : ∀ x ∈ l, a ≤ x) (h2 : ∀ x ∈ l, x ≤ b) :
    a ≤ l.sum / l.length ∧ l.sum / l.length ≤ b := by
  have hlen := lengthQ_pos l hl
  constructor
  · rw [le_div_iff₀ hlen]
    exact mul_length_le_sum l a h1
  · rw [div_le_iff₀ hlen]
    calc l.sum ≤ b * l.length := sum_le_mul_length l b h2
      _ = b * l.length := by ring

lemma roundQ_mono {a b : ℚ} (h : a ≤ b) : round a ≤ round b := by
  rw [round_eq, round_eq]
  exact Int.floor_le_floor (by linarith)

lemma intDiv10_le_round1 (n : ℤ) (q : ℚ) (h : (n : ℚ) / 10 ≤ q) :
    (n : ℚ) / 10 ≤ round1 q := by
  have h1 : (n : ℚ) ≤ q * 10 := by linarith
  have h2 : n ≤ round (q * 10) := by
    calc n = round ((n : ℚ)) := (round_intCast n).symm
      _ ≤ round (q * 10) := roundQ_mono h1
  have h3 : (n : ℚ) ≤ ((round (q * 10) : ℤ) : ℚ) := by exact_mod_cast h2
  unfold round1
  linarith

lemma round1_le_intDiv10 (n : ℤ) (q : ℚ) (h : q ≤ (n : ℚ) / 10) :
    round1 q ≤ (n : ℚ) / 10 := by
  have h1 : q * 10 ≤ (n : ℚ) := by linarith
  have h2 : round (q * 10) ≤ n := by
    calc round (q * 10) ≤ round ((n : ℚ)) := roundQ_mono h1
      _ = n := round_intCast n
  have h3 : ((round (q * 10) : ℤ) : ℚ) ≤ (n : ℚ) := by exact_mod_cast h2
  unfold round1
  linarith

lemma abs_round1_sub (q : ℚ) : |round1 q - q| ≤ 1 / 20 := by
  have h : |((round (q * 10) : ℤ) : ℚ) - q * 10| ≤ 1 / 2 := by
    rw [abs_sub_comm]
    exact abs_sub_round _
  have h3 : round1 q - q = (((round (q * 10) : ℤ) : ℚ) - q * 10) / 10 := by
    unfold round1
    ring
  rw [abs_le] at h
  rw [h3, abs_div]
  have h10 : |(10 : ℚ)| = 10 := by norm_num
  rw [h10, div_le_iff₀ (by norm_num : (0:ℚ) < 10), abs_le]
  constructor <;> linarith [h.1, h.2]

/-! ### Lemmas about the nights dictionary -/

lemma lookupN_addToBucket_ne (m : NightsMap) (d : String) (f : NightRaw → NightRaw)
    (k : String) (hk : k ≠ d) : lookupN (addToBucket m d f) k = lookupN m k := by
  induction m with
  | nil =>
    simp only [addToBucket, lookupN]
    rw [if_neg (fun h => hk h.symm)]
  | cons hd tl ih =>
    obtain ⟨k0, r0⟩ := hd
    by_cases hkd : k0 = d
    · have hk0k : k0 ≠ k := fun h => hk (h ▸ hkd)
      simp only [addToBucket, if_pos hkd, lookupN, if_neg hk0k]
    · simp only [addToBucket, if_neg hkd, lookupN]
      by_cases hk0 : k0 = k
      · rw [if_pos hk0, if_pos hk0]
      · rw [if_neg hk0, if_neg hk0]
        exact ih

lemma mem_addToBucket {d : String} {f : NightRaw → NightRaw} :
    ∀ {m : NightsMap} {kv : String × NightRaw}, kv ∈ addToBucket m d f →
      kv ∈ m ∨ ∃ r₀, kv = (d, f r₀) ∧ (r₀ = emptyRaw ∨ (d, r₀) ∈ m) := by
  intro m
  induction m with
  | nil =>
    intro kv hkv
    simp only [addToBucket, List.mem_singleton] at hkv
    exact Or.inr ⟨emptyRaw, hkv, Or.inl rfl⟩
  | cons hd tl ih =>
    intro kv hkv
    obtain ⟨k, r⟩ := hd
    by_cases hkd : k = d
    · rw [addToBucket.eq_def] at hkv
      simp only [if_pos hkd] at hkv
      rcases List.mem_cons.mp hkv with h | h
      · exact Or.inr ⟨r, by rw [h, hkd], Or.inr (by rw [← hkd]; exact List.mem_cons_self _ _)⟩
      · exact Or.inl (List.mem_cons_of_mem _ h)
    · rw [addToBucket.eq_def] at hkv
      simp only [if_neg hkd] at hkv
      rcases List.mem_cons.mp hkv with h | h
      · exact Or.inl (h ▸ List.mem_cons_self _ _)
      · rcases ih h with h2 | ⟨r₀, hr₀, hmem⟩
        · exact Or.inl (List.mem_cons_of_mem _ h2)
        · exact Or.inr ⟨r₀, hr₀, hmem.imp id (List.mem_cons_of_mem _)⟩

lemma bucketFold_segs_subset (L : List SleepSegment) :
    ∀ (segs : List SleepSegment) (m : NightsMap),
      (∀ s ∈ segs, s ∈ L) →
      (∀ kv ∈ m, ∀ s ∈ kv.2.segments, s ∈ L) →
      ∀ kv ∈ segs.foldl (fun m s => addToBucket m s.start.localDate (pushSeg s)) m,
        ∀ s ∈ kv.2.segments, s ∈ L
  | [], m, _, hm => by simpa using hm
  | x :: t, m, hsegs, hm => by
    rw [List.foldl_cons]
    apply bucketFold_segs_subset L t _ (fun s hs => hsegs s (List.mem_cons_of_mem x hs))
    intro kv hkv s hs
    rcases mem_addToBucket hkv with h | ⟨r₀, hkveq, hr₀⟩
    · exact hm kv h s hs
    · rw [hkveq] at hs
      simp only [pushSeg, List.mem_append, List.mem_singleton] at hs
      rcases hs with hs | hs
      · rcases hr₀ with h0 | h0
        · rw [h0] at hs
          simp [emptyRaw] at hs
        · exact hm _ h0 s hs
      · rw [hs]
        exact hsegs x (List.mem_cons_self x t)

lemma assignFold_segs_subset (L : List SleepSegment) (asleep : List SleepSegment)
    (upd : ℚ → NightRaw → NightRaw) (hupd : ∀ v r, (upd v r).segments = r.segments) :
    ∀ (pts : List VitalPoint) (m : NightsMap),
      (∀ kv ∈ m, ∀ s ∈ kv.2.segments, s ∈ L) →
      ∀ kv ∈ assign_points asleep upd pts m, ∀ s ∈ kv.2.segments, s ∈ L
  | [], m, hm => by simpa [assign_points] using hm
  | p :: t, m, hm => by
    rw [assign_points, List.foldl_cons]
    apply assignFold_segs_subset L asleep upd hupd t
    intro kv hkv s hs
    unfold assignPoint at hkv
    cases hfind : findSeg asleep p.ts with
    | none =>
      rw [hfind] at hkv
      exact hm kv hkv s hs
    | some sf =>
      rw [hfind] at hkv
      rcases mem_addToBucket hkv with h | ⟨r₀, hkveq, hr₀⟩
      · exact hm kv h s hs
      · rw [hkveq] at hs
        simp only [hupd] at hs
        rcases hr₀ with h0 | h0
        · rw [h0] at hs
          simp [emptyRaw] at hs
        · exact hm (sf.start.localDate, r₀) h0 s hs

/-! ### Duration-fold invariants -/

lemma durStep_fold_total : ∀ (segs : List SleepSegment) (acc : ℚ × ℚ × ℚ),
    acc.1 = acc.2.1 + acc.2.2 →
    (segs.foldl durStep acc).1 = (segs.foldl durStep acc).2.1 + (segs.foldl durStep acc).2.2
  | [], _, h => h
  | x :: t, acc, h => by
    rw [List.foldl_cons]
    apply durStep_fold_total
    unfold durStep
    split_ifs <;> simp <;> linarith

lemma durStep_fold_nonneg : ∀ (segs : List SleepSegment) (acc : ℚ × ℚ × ℚ),
    0 ≤ acc.2.1 → 0 ≤ acc.2.2 → (∀ s ∈ segs, 0 ≤ segDur s) →
    0 ≤ (segs.foldl durStep acc).2.1 ∧ 0 ≤ (segs.foldl durStep acc).2.2
  | [], _, h1, h2, _ => ⟨h1, h2⟩
  | x :: t, acc, h1, h2, hs => by
    rw [List.foldl_cons]
    have hx := hs x (List.mem_cons_self x t)
    apply durStep_fold_nonneg t _ _ _ (fun s hmem => hs s (List.mem_cons_of_mem x hmem)) <;>
    · unfold durStep
      split_ifs <;> simp <;> linarith

lemma segDur_nonneg {s : SleepSegment} (h : s.start.epoch ≤ s.stop.epoch) :
    0 ≤ segDur s := by
  unfold segDur
  apply div_nonneg _ (by norm_num)
  have : (0 : ℤ) ≤ s.stop.epoch - s.start.epoch := by linarith
  exact_mod_cast this

/-- Claim C1 (amended): for every ingest all of whose sleep records satisfy
start ≤ end, every produced night satisfies
rem_sleep_hours + non_rem_sleep_hours = total_sleep_hours (exactly, hence
within 1e-6), and rem_percentage is null iff total_sleep_hours = 0 and
otherwise lies in [0, 100].  (Without the start ≤ end hypothesis the claim
is false: see the counterexample theorem.) -/
theorem c1_night_invariants (segs : List SleepSegment) (hrP hrvP respP : List VitalPoint)
    (hwf : ∀ s ∈ segs, s.start.epoch ≤ s.stop.epoch) :
    ∀ n ∈ computeNights segs hrP hrvP respP,
      n.rem_sleep_hours + n.nonrem_sleep_hours = n.total_sleep_hours
      ∧ (n.rem_percentage = none ↔ n.total_sleep_hours = 0)
      ∧ ∀ q, n.rem_percentage = some q → 0 ≤ q ∧ q ≤ 100 := by
  intro n hn
  simp only [computeNights, aggregate, List.mem_map] at hn
  obtain ⟨kv, hkv, hred⟩ := hn
  -- every segment sitting in any bucket comes from the filtered input
  have hdur : ∀ s ∈ kv.2.segments, 0 ≤ segDur s := by
    have hstep0 : ∀ kv2 ∈ bucketSegments (segs.filter asleepB),
        ∀ s ∈ kv2.2.segments, s ∈ segs.filter asleepB := by
      apply bucketFold_segs_subset (segs.filter asleepB) (segs.filter asleepB) []
        (fun s hs => hs)
      intro kv2 hkv2
      simp at hkv2
    have hstep1 := assignFold_segs_subset (segs.filter asleepB) (segs.filter asleepB)
      pushHr (fun _ _ => rfl) hrP _ hstep0
    have hstep2 := assignFold_segs_subset (segs.filter asleepB) (segs.filter asleepB)
      pushHrv (fun _ _ => rfl) hrvP _ hstep1
    have hstep3 := assignFold_segs_subset (segs.filter asleepB) (segs.filter asleepB)
      pushResp (fun _ _ => rfl) respP _ hstep2
    intro s hs
    have hmem := hstep3 kv hkv s hs
    exact segDur_nonneg (hwf s (List.mem_filter.mp hmem).1)
  have htot := durStep_fold_total kv.2.segments (0, 0, 0) (by norm_num)
  have hnn := durStep_fold_nonneg kv.2.segments (0, 0, 0) le_rfl le_rfl hdur
  rw [← hred]
  simp only [reduceNight, sumDurs]
  refine ⟨htot.symm, ?_, ?_⟩
  · by_cases hpos : 0 < (kv.2.segments.foldl durStep (0, 0, 0)).1
    · rw [if_pos hpos]
      constructor
      · intro h
        exact absurd h (by simp)
      · intro h
        exact absurd h (by linarith)
    · rw [if_neg hpos]
      simp only [true_iff]
      have hge : 0 ≤ (kv.2.segments.foldl durStep (0, 0, 0)).1 := by
        rw [htot]
        linarith [hnn.1, hnn.2]
      linarith [not_lt.mp hpos]
  · intro q hq
    by_cases hpos : 0 < (kv.2.segments.foldl durStep (0, 0, 0)).1
    · rw [if_pos hpos] at hq
      have hqeq : q = (kv.2.segments.foldl durStep (0, 0, 0)).2.1 /
          (kv.2.segments.foldl durStep (0, 0, 0)).1 * 100 := by
        injection hq with h
        exact h.symm
      have hremle : (kv.2.segments.foldl durStep (0, 0, 0)).2.1 ≤
          (kv.2.segments.foldl durStep (0, 0, 0)).1 := by
        rw [htot]
        linarith [hnn.2]
      constructor
      · rw [hqeq]
        have := div_nonneg hnn.1 hpos.le
        linarith
      · rw [hqeq]
        have hdivle : (kv.2.segments.foldl durStep (0, 0, 0)).2.1 /
            (kv.2.segments.foldl durStep (0, 0, 0)).1 ≤ 1 :=
          (div_le_one hpos).mpr hremle
        linarith
    · rw [if_neg hpos] at hq
      exact absurd hq (by simp)

/-- Claim C1 witness: the invariant theorem applied to a concrete one-night
ingest (one eight-hour REM segment). -/
theorem c1_night_invariants_witness :
    ({ date := "2024-11-01", total_sleep_hours := 8, rem_sleep_hours := 8,
       nonrem_sleep_hours := 0, rem_percentage := some 100,
       avg_hr := none, avg_hrv := none, avg_resp := none } : NightAggregate).rem_sleep_hours
      + ({ date := "2024-11-01", total_sleep_hours := 8, rem_sleep_hours := 8,
           nonrem_sleep_hours := 0, rem_percentage := some 100,
           avg_hr := none, avg_hrv := none, avg_resp := none } : NightAggregate).nonrem_sleep_hours
      = ({ date := "2024-11-01", total_sleep_hours := 8, rem_sleep_hours := 8,
           nonrem_sleep_hours := 0, rem_percentage := some 100,
           avg_hr := none, avg_hrv := none, avg_resp := none } : NightAggregate).total_sleep_hours :=
  (c1_night_invariants
    [⟨⟨0, "2024-11-01"⟩, ⟨28800, "2024-11-01"⟩, "ASLEEP_REM"⟩]
    [] [] [] (by decide) _
    (by
      have h1 : asleepB ⟨⟨0, "2024-11-01"⟩, ⟨28800, "2024-11-01"⟩, "ASLEEP_REM"⟩ = true := by
        decide
      have h2 : stageIsRem "ASLEEP_REM" = true := by decide
      have heval : computeNights
          [⟨⟨0, "2024-11-01"⟩, ⟨28800, "2024-11-01"⟩, "ASLEEP_REM"⟩]
          [] [] [] =
          [{ date := "2024-11-01", total_sleep_hours := 8, rem_sleep_hours := 8,
             nonrem_sleep_hours := 0, rem_percentage := some 100,
             avg_hr := none, avg_hrv := none, avg_resp := none }] := by
        simp only [computeNights, aggregate, bucketSegments, assign_points, assignPoint,
          addToBucket, reduceNight, sumDurs, durStep, segDur, avgQ, List.filter, List.foldl,
          List.map, List.isEmpty, pushSeg, pushHr, pushHrv, pushResp, emptyRaw, h1, h2,
          List.sum, List.length]
        norm_num
      rw [heval]
      exact List.mem_singleton.mpr rfl)).1

/-- Claim C1 counterexample: the claim as stated is false on the code.  A
sleep record whose end precedes its start (which the parser accepts) yields
a night with `total_sleep_hours = -8 ≠ 0` whose `rem_percentage` is null,
violating "rem_percentage is null iff total_sleep_hours == 0". -/
theorem c1_night_invariants_counterexample :
    (computeNights
        [⟨⟨115200, "2024-11-03"⟩, ⟨86400, "2024-11-03"⟩, "ASLEEP_REM"⟩]
        [] [] []).map (fun n => (n.rem_percentage, n.total_sleep_hours))
      = [((none : Option ℚ), (-8 : ℚ))]
    ∧ (-8 : ℚ) ≠ 0 := by
  constructor
  · have h1 : asleepB ⟨⟨115200, "2024-11-03"⟩, ⟨86400, "2024-11-03"⟩, "ASLEEP_REM"⟩ = true := by
      decide
    have h2 : stageIsRem "ASLEEP_REM" = true := by decide
    simp only [computeNights, aggregate, bucketSegments, assign_points, assignPoint,
      addToBucket, reduceNight, sumDurs, durStep, segDur, avgQ, List.filter, List.foldl,
      List.map, List.isEmpty, pushSeg, pushHr, pushHrv, pushResp, emptyRaw, h1, h2,
      List.sum, List.length]
    norm_num
  · norm_num

/-- Claim C4: a sleep segment whose stage is in-bed or awake (the stages the
numeric importer encoding produces for codes 0 and 2) contributes nothing to
aggregation: removing it from the segment stream leaves every NightAggregate
— hours and vital-point assignment alike — unchanged, because the
aggregator keeps only segments whose stage contains "ASLEEP". -/
theorem c4_inbed_awake_never_contribute (s : SleepSegment)
    (hstage : s.stage = "INBED" ∨ s.stage = "AWARENESS")
    (segs1 segs2 : List SleepSegment) (hrP hrvP respP : List VitalPoint) :
    computeNights (segs1 ++ s :: segs2) hrP hrvP respP
      = computeNights (segs1 ++ segs2) hrP hrvP respP := by
  have hb : asleepB s = false := by
    rcases hstage with h | h <;>
    · unfold asleepB
      rw [h]
      decide
  unfold computeNights
  rw [List.filter_append, List.filter_append, List.filter_cons, hb]
  simp

/-- Claim C4 witness: the exclusion theorem applied to a concrete ingest: an
INBED segment next to an eight-hour ASLEEP segment yields exactly the
aggregates of the ASLEEP segment alone. -/
theorem c4_inbed_awake_never_contribute_witness :
    computeNights
        [⟨⟨200000, "2024-11-04"⟩, ⟨203600, "2024-11-04"⟩, "INBED"⟩,
         ⟨⟨210000, "2024-11-04"⟩, ⟨238800, "2024-11-04"⟩, "ASLEEP"⟩]
        [] [] []
      = computeNights
        [⟨⟨210000, "2024-11-04"⟩, ⟨238800, "2024-11-04"⟩, "ASLEEP"⟩]
        [] [] [] :=
  c4_inbed_awake_never_contribute
    ⟨⟨200000, "2024-11-04"⟩, ⟨203600, "2024-11-04"⟩, "INBED"⟩ (Or.inl rfl)
    [] [⟨⟨210000, "2024-11-04"⟩, ⟨238800, "2024-11-04"⟩, "ASLEEP"⟩] [] [] []

/-- Claim C5 (code behavior at the failing input): a sleep record whose end
timestamp precedes its start timestamp is NOT rejected by the code — it
passes the filter, enters aggregation, and contributes negative hours
(-7 here) to its night, contradicting the claim that `start ≤ end` is
enforced rather than assumed. -/
theorem c5_reversed_segment_accepted :
    computeNights
        [⟨⟨126000, "2024-11-02"⟩, ⟨100800, "2024-11-02"⟩, "ASLEEP"⟩]
        [] [] []
      = [{ date := "2024-11-02", total_sleep_hours := -7, rem_sleep_hours := 0,
           nonrem_sleep_hours := -7, rem_percentage := none,
           avg_hr := none, avg_hrv := none, avg_resp := none }]
    ∧ (-7 : ℚ) < 0 := by
  constructor
  · have h1 : asleepB ⟨⟨126000, "2024-11-02"⟩, ⟨100800, "2024-11-02"⟩, "ASLEEP"⟩ = true := by
      decide
    have h2 : stageIsRem "ASLEEP" = false := by decide
    simp only [computeNights, aggregate, bucketSegments, assign_points, assignPoint,
      addToBucket, reduceNight, sumDurs, durStep, segDur, avgQ, List.filter, List.foldl,
      List.map, List.isEmpty, pushSeg, pushHr, pushHrv, pushResp, emptyRaw, h1, h2,
      List.sum, List.length]
    norm_num
  · norm_num

lemma find?_append_first {α : Type} (q : α → Bool) :
    ∀ (pre : List α) (s : α) (post : List α),
      (∀ x ∈ pre, q x = false) → q s = true →
      (pre ++ s :: post).find? q = some s
  | [], s, post, _, hs => by
    simpa using List.find?_cons_of_pos post hs
  | x :: t, s, post, hpre, hs => by
    have hx : q x = false := hpre x (List.mem_cons_self x t)
    rw [List.cons_append, List.find?_cons_of_neg _ (by simp [hx])]
    exact find?_append_first q t s post (fun y hy => hpre y (List.mem_cons_of_mem x hy)) hs

/-- Claim C6: processing one vital point either (a) leaves the nights map
untouched when no asleep segment's [start, end] interval contains the
point's timestamp (the point is dropped), or (b), when the asleep list
splits as pre ++ s :: post with no segment of pre containing the point and
s containing it (s is the first containing segment in emission order),
appends the point's value exactly to the night keyed by s's start date,
leaving every other night's bucket unchanged. -/
theorem c6_point_assignment (asleep : List SleepSegment) (upd : ℚ → NightRaw → NightRaw)
    (m : NightsMap) (p : VitalPoint) :
    ((∀ s ∈ asleep, inSegB s p.ts = false) → assignPoint asleep upd m p = m)
    ∧ (∀ pre s post, asleep = pre ++ s :: post →
        (∀ s2 ∈ pre, inSegB s2 p.ts = false) → inSegB s p.ts = true →
        assignPoint asleep upd m p = addToBucket m s.start.localDate (upd p.val)
        ∧ ∀ k, k ≠ s.start.localDate →
            lookupN (assignPoint asleep upd m p) k = lookupN m k) := by
  constructor
  · intro h
    have hnone : findSeg asleep p.ts = none := by
      apply List.find?_eq_none.mpr
      intro x hx
      simp [h x hx]
    unfold assignPoint
    rw [hnone]
  · intro pre s post heq hpre hs
    have hfind : findSeg asleep p.ts = some s := by
      rw [heq]
      exact find?_append_first _ pre s post hpre hs
    have hstep : assignPoint asleep upd m p = addToBucket m s.start.localDate (upd p.val) := by
      unfold assignPoint
      rw [hfind]
    refine ⟨hstep, ?_⟩
    intro k hk
    rw [hstep]
    exact lookupN_addToBucket_ne m s.start.localDate (upd p.val) k hk

/-- Claim C6 witness: a heart-rate point at timestamp 10000 is contained in
the second of two segments only and lands in that segment's night bucket. -/
theorem c6_point_assignment_witness :
    assignPoint
        [⟨⟨0, "2024-11-05"⟩, ⟨3600, "2024-11-05"⟩, "ASLEEP"⟩,
         ⟨⟨7200, "2024-11-05"⟩, ⟨14400, "2024-11-05"⟩, "ASLEEP"⟩]
        pushHr [] ⟨⟨10000, "2024-11-05"⟩, 60⟩
      = addToBucket [] "2024-11-05" (pushHr 60) :=
  ((c6_point_assignment
      [⟨⟨0, "2024-11-05"⟩, ⟨3600, "2024-11-05"⟩, "ASLEEP"⟩,
       ⟨⟨7200, "2024-11-05"⟩, ⟨14400, "2024-11-05"⟩, "ASLEEP"⟩]
      pushHr [] ⟨⟨10000, "2024-11-05"⟩, 60⟩).2
    [⟨⟨0, "2024-11-05"⟩, ⟨3600, "2024-11-05"⟩, "ASLEEP"⟩]
    ⟨⟨7200, "2024-11-05"⟩, ⟨14400, "2024-11-05"⟩, "ASLEEP"⟩
    [] rfl (by decide) (by decide)).1

lemma safe_avg_spec (ns : List NightAggregate) (f : NightAggregate → Option ℚ) :
    (safe_avg ns f = none ↔ ∀ n ∈ ns, f n = none)
    ∧ ∀ q, safe_avg ns f = some q →
        q = (ns.filterMap f).sum / (ns.filterMap f).length := by
  unfold safe_avg
  by_cases he : (ns.filterMap f).isEmpty
  · rw [if_pos he]
    have hnil : ns.filterMap f = [] := List.isEmpty_iff.mp he
    constructor
    · exact iff_of_true rfl (List.filterMap_eq_nil_iff.mp hnil)
    · intro q hq
      exact absurd hq (by simp)
  · rw [if_neg he]
    have hne : ¬ ns.filterMap f = [] := fun hh => he (List.isEmpty_iff.mpr hh)
    constructor
    · constructor
      · intro hq
        exact absurd hq (by simp)
      · intro hall
        exact absurd (List.filterMap_eq_nil_iff.mpr hall) hne
    · intro q hq
      injection hq with h
      exact h.symm

/-- Claim C7 (amended): for every nights list the summary yields, it
contains the night count, the mean of total_sleep_hours rounded to two
decimals, and the null-skipping means rounded to one decimal of heart
rate, HRV, respiratory rate and REM percentage, each null exactly when
every night lacks that field (never zero); the summary does NOT contain
min/max dates (see the counterexample: it is invariant under changing the
nights' dates). -/
theorem c7_summary_contents (ns : List NightAggregate) (S : Summary)
    (h : compute_sleep_summary ns = some S) :
    S.nights = ns.length
    ∧ S.avg_total_sleep = round2 ((ns.map fun n => n.total_sleep_hours).sum / ns.length)
    ∧ (S.avg_hr = none ↔ ∀ n ∈ ns, n.avg_hr = none)
    ∧ (S.avg_hrv = none ↔ ∀ n ∈ ns, n.avg_hrv = none)
    ∧ (S.avg_resp_rate = none ↔ ∀ n ∈ ns, n.avg_resp = none)
    ∧ (S.avg_rem_pct = none ↔ ∀ n ∈ ns, n.rem_percentage = none)
    ∧ (∀ q, S.avg_hr = some q →
        q = round1 ((ns.filterMap fun n => n.avg_hr).sum
          / (ns.filterMap fun n => n.avg_hr).length))
    ∧ (∀ q, S.avg_hrv = some q →
        q = round1 ((ns.filterMap fun n => n.avg_hrv).sum
          / (ns.filterMap fun n => n.avg_hrv).length))
    ∧ (∀ q, S.avg_resp_rate = some q →
        q = round1 ((ns.filterMap fun n => n.avg_resp).sum
          / (ns.filterMap fun n => n.avg_resp).length))
    ∧ (∀ q, S.avg_rem_pct = some q →
        q = round1 ((ns.filterMap fun n => n.rem_percentage).sum
          / (ns.filterMap fun n => n.rem_percentage).length)) := by
  unfold compute_sleep_summary at h
  by_cases hemp : ns.isEmpty
  · rw [if_pos hemp] at h
    exact absurd h (by simp)
  · rw [if_neg hemp] at h
    have hS := (Option.some.inj h).symm
    subst hS
    refine ⟨rfl, rfl, ?_, ?_, ?_, ?_, ?_, ?_, ?_, ?_⟩
    · rw [show ((safe_avg ns fun n => n.avg_hr).map round1 = none)
          ↔ (safe_avg ns fun n => n.avg_hr) = none from Option.map_eq_none']
      exact (safe_avg_spec ns _).1
    · rw [show ((safe_avg ns fun n => n.avg_hrv).map round1 = none)
          ↔ (safe_avg ns fun n => n.avg_hrv) = none from Option.map_eq_none']
      exact (safe_avg_spec ns _).1
    · rw [show ((safe_avg ns fun n => n.avg_resp).map round1 = none)
          ↔ (safe_avg ns fun n => n.avg_resp) = none from Option.map_eq_none']
      exact (safe_avg_spec ns _).1
    · rw [show ((safe_avg ns fun n => n.rem_percentage).map round1 = none)
          ↔ (safe_avg ns fun n => n.rem_percentage) = none from Option.map_eq_none']
      exact (safe_avg_spec ns _).1
    · intro q hq
      obtain ⟨a, ha, hqa⟩ := Option.map_eq_some'.mp hq
      rw [← hqa, (safe_avg_spec ns _).2 a ha]
    · intro q hq
      obtain ⟨a, ha, hqa⟩ := Option.map_eq_some'.mp hq
      rw [← hqa, (safe_avg_spec ns _).2 a ha]
    · intro q hq
      obtain ⟨a, ha, hqa⟩ := Option.map_eq_some'.mp hq
      rw [← hqa, (safe_avg_spec ns _).2 a ha]
    · intro q hq
      obtain ⟨a, ha, hqa⟩ := Option.map_eq_some'.mp hq
      rw [← hqa, (safe_avg_spec ns _).2 a ha]

/-- Claim C7 witness: the summary theorem applied to a concrete one-night
list (8 hours of sleep, REM percentage 25, no vitals). -/
theorem c7_summary_contents_witness :
    ({ nights := 1, avg_total_sleep := 8, avg_hr := none, avg_hrv := none,
       avg_resp_rate := none, avg_rem_pct := some 25 } : Summary).nights
      = [({ date := "2024-11-01", total_sleep_hours := 8, rem_sleep_hours := 2,
            nonrem_sleep_hours := 6, rem_percentage := some 25,
            avg_hr := none, avg_hrv := none, avg_resp := none } : NightAggregate)].length :=
  (c7_summary_contents
    [{ date := "2024-11-01", total_sleep_hours := 8, rem_sleep_hours := 2,
       nonrem_sleep_hours := 6, rem_percentage := some 25,
       avg_hr := none, avg_hrv := none, avg_resp := none }]
    { nights := 1, avg_total_sleep := 8, avg_hr := none, avg_hrv := none,
      avg_resp_rate := none, avg_rem_pct := some 25 }
    (by
      simp only [compute_sleep_summary, safe_avg, List.filterMap, List.isEmpty, List.map,
        List.sum, List.length, Option.map]
      norm_num [round1, round2, round_eq])).1

/-- Claim C7 counterexample: the claim's "the summary contains the min and
max date" is false — the summary of the code contains no date field at
all, so two nights lists that differ only in their dates produce the very
same summary. -/
theorem c7_summary_contents_counterexample :
    compute_sleep_summary
        [{ date := "2024-11-01", total_sleep_hours := 8, rem_sleep_hours := 2,
           nonrem_sleep_hours := 6, rem_percentage := some 25,
           avg_hr := none, avg_hrv := none, avg_resp := none }]
      = compute_sleep_summary
        [{ date := "1999-01-01", total_sleep_hours := 8, rem_sleep_hours := 2,
           nonrem_sleep_hours := 6, rem_percentage := some 25,
           avg_hr := none, avg_hrv := none, avg_resp := none }]
    ∧ ("2024-11-01" : String) ≠ "1999-01-01" := by
  constructor
  · rfl
  · decide

/-- Claim C8: a second successful ingest fully replaces all state produced
by a first ingest — the resulting state (rolling window and cached summary)
is identical to ingesting the second input from the empty initial state, so
no night of the first ingest can survive the second. -/
theorem c8_second_ingest_replaces (st : AppState) (d1 d2 : IngestData) :
    upload_ok (upload_ok st d1) d2 = upload_ok initialState d2 := rfl

/-- Claim C9 (code behavior at the failing input): after a successful
ingest of one night, ingesting a malformed stream fails with ParseFailure
and leaves the observable state MIXED, not consistent: the summary reader
still returns the first ingest's data (summary_cache was never touched)
while the nights reader reports no data (the global nights list was reset
at the start of the failed parse). -/
theorem c9_failed_ingest_inconsistent_reads :
    ((upload
        ((upload initialState
          (UploadInput.wellFormed
            ⟨[⟨⟨0, "2024-11-06"⟩, ⟨28800, "2024-11-06"⟩, "ASLEEP"⟩], [], [], []⟩)).1)
        UploadInput.malformed).2 = some IngestError.ParseFailure)
    ∧ get_nights
        ((upload initialState
          (UploadInput.wellFormed
            ⟨[⟨⟨0, "2024-11-06"⟩, ⟨28800, "2024-11-06"⟩, "ASLEEP"⟩], [], [], []⟩)).1) ≠ none
    ∧ get_summary
        ((upload
          ((upload initialState
            (UploadInput.wellFormed
              ⟨[⟨⟨0, "2024-11-06"⟩, ⟨28800, "2024-11-06"⟩, "ASLEEP"⟩], [], [], []⟩)).1)
          UploadInput.malformed).1) ≠ none
    ∧ get_nights
        ((upload
          ((upload initialState
            (UploadInput.wellFormed
              ⟨[⟨⟨0, "2024-11-06"⟩, ⟨28800, "2024-11-06"⟩, "ASLEEP"⟩], [], [], []⟩)).1)
          UploadInput.malformed).1) = none := by
  have h1 : asleepB ⟨⟨0, "2024-11-06"⟩, ⟨28800, "2024-11-06"⟩, "ASLEEP"⟩ = true := by decide
  have h2 : stageIsRem "ASLEEP" = false := by decide
  have heval : computeNights
      [⟨⟨0, "2024-11-06"⟩, ⟨28800, "2024-11-06"⟩, "ASLEEP"⟩] [] [] [] =
      [{ date := "2024-11-06", total_sleep_hours := 8, rem_sleep_hours := 0,
         nonrem_sleep_hours := 8, rem_percentage := some 0,
         avg_hr := none, avg_hrv := none, avg_resp := none }] := by
    simp only [computeNights, aggregate, bucketSegments, assign_points, assignPoint,
      addToBucket, reduceNight, sumDurs, durStep, segDur, avgQ, List.filter, List.foldl,
      List.map, List.isEmpty, pushSeg, pushHr, pushHrv, pushResp, emptyRaw, h1, h2,
      List.sum, List.length]
    norm_num
  refine ⟨rfl, ?_, ?_, rfl⟩
  · simp [upload, upload_ok, parse_stream, get_nights, heval, get_recent_nights,
      sortNightsByDate, insertByDate, MAX_NIGHTS]
  · simp [upload, upload_ok, parse_stream, get_summary, heval, compute_sleep_summary]

/-! ### Score-component bounds -/

lemma durationScoreNight_bounds (d : ℚ) :
    30 ≤ durationScoreNight d ∧ durationScoreNight d ≤ 100 := by
  unfold durationScoreNight
  split_ifs with h
  · norm_num
  · constructor
    · exact le_max_left _ _
    · apply max_le (by norm_num)
      have hmin : 0 ≤ min (|d - 8| * 10) 70 := le_min (by positivity) (by norm_num)
      linarith

lemma durationScore_bounds (recent : List NightAggregate) (h : recent ≠ []) :
    30 ≤ durationScore recent ∧ durationScore recent ≤ 100 := by
  simp only [durationScore]
  apply mean_bounds
  · intro hc
    exact h (List.map_eq_nil_iff.mp hc)
  · intro x hx
    obtain ⟨n, _, rfl⟩ := List.mem_map.mp hx
    exact (durationScoreNight_bounds _).1
  · intro x hx
    obtain ⟨n, _, rfl⟩ := List.mem_map.mp hx
    exact (durationScoreNight_bounds _).2

lemma regularityScore_mem (recent : List NightAggregate) :
    regularityScore recent = 100 ∨ regularityScore recent = 85
      ∨ regularityScore recent = 70 := by
  simp only [regularityScore]
  split_ifs <;> simp

lemma hrScore_bounds (recent : List NightAggregate) :
    60 ≤ hrScore recent ∧ hrScore recent ≤ 100 := by
  simp only [hrScore]
  split_ifs with h1 h2
  · norm_num
  · norm_num
  · constructor
    · exact le_max_left _ _
    · apply max_le (by norm_num)
      have hmin : 0 ≤ min (|(recent.filterMap fun n => n.avg_hr).sum
          / ((recent.filterMap fun n => n.avg_hr).length : ℚ) - 60| * 2) 40 :=
        le_min (by positivity) (by norm_num)
      linarith

lemma hrvScore_bounds (recent : List NightAggregate) :
    70 ≤ hrvScore recent ∧ hrvScore recent ≤ 100 := by
  simp only [hrvScore]
  split_ifs <;> norm_num

lemma respScore_bounds (recent : List NightAggregate) :
    60 ≤ respScore recent ∧ respScore recent ≤ 100 := by
  simp only [respScore]
  split_ifs with h1 h2
  · norm_num
  · norm_num
  · constructor
    · exact le_max_left _ _
    · apply max_le (by norm_num)
      have hmin : 0 ≤ min (|(recent.filterMap fun n => n.avg_resp).sum
          / ((recent.filterMap fun n => n.avg_resp).length : ℚ) - 15| * 3) 40 :=
        le_min (by positivity) (by norm_num)
      linarith

/-- Claim C2: for every non-empty rolling window, each of the five score
components lies in [0, 100]; the final sleep score equals the weighted sum
with weights 0.40 / 0.20 / 0.15 / 0.15 / 0.10 rounded to one decimal, hence
lies in [0, 100], and it agrees with the weighted sum of the five rounded
components to within rounding tolerance (1/10). -/
theorem c2_score_bounds (recent : List NightAggregate) (h : recent ≠ []) :
    (0 ≤ durationScore recent ∧ durationScore recent ≤ 100)
    ∧ (0 ≤ regularityScore recent ∧ regularityScore recent ≤ 100)
    ∧ (0 ≤ hrScore recent ∧ hrScore recent ≤ 100)
    ∧ (0 ≤ hrvScore recent ∧ hrvScore recent ≤ 100)
    ∧ (0 ≤ respScore recent ∧ respScore recent ≤ 100)
    ∧ sleep_score recent
        = round1 (40/100 * durationScore recent + 20/100 * regularityScore recent
            + 15/100 * hrScore recent + 15/100 * hrvScore recent
            + 10/100 * respScore recent)
    ∧ (0 ≤ sleep_score recent ∧ sleep_score recent ≤ 100)
    ∧ |sleep_score recent
        - (40/100 * round1 (durationScore recent) + 20/100 * round1 (regularityScore recent)
            + 15/100 * round1 (hrScore recent) + 15/100 * round1 (hrvScore recent)
            + 10/100 * round1 (respScore recent))| ≤ 1/10 := by
  obtain ⟨hd1, hd2⟩ := durationScore_bounds recent h
  have hreg := regularityScore_mem recent
  have hreg1 : 70 ≤ regularityScore recent := by
    rcases hreg with h' | h' | h' <;> rw [h'] <;> norm_num
  have hreg2 : regularityScore recent ≤ 100 := by
    rcases hreg with h' | h' | h' <;> rw [h'] <;> norm_num
  obtain ⟨hh1, hh2⟩ := hrScore_bounds recent
  obtain ⟨hv1, hv2⟩ := hrvScore_bounds recent
  obtain ⟨hr1, hr2⟩ := respScore_bounds recent
  have hraw1 : 0 ≤ sleepScoreRaw recent := by unfold sleepScoreRaw; linarith
  have hraw2 : sleepScoreRaw recent ≤ 100 := by unfold sleepScoreRaw; linarith
  refine ⟨⟨by linarith, hd2⟩, ⟨by linarith, hreg2⟩, ⟨by linarith, hh2⟩,
    ⟨by linarith, hv2⟩, ⟨by linarith, hr2⟩, rfl, ⟨?_, ?_⟩, ?_⟩
  · show 0 ≤ round1 (sleepScoreRaw recent)
    have h0 : ((0 : ℤ) : ℚ) / 10 ≤ round1 (sleepScoreRaw recent) :=
      intDiv10_le_round1 0 _ (by push_cast; linarith)
    push_cast at h0
    linarith
  · show round1 (sleepScoreRaw recent) ≤ 100
    have h0 : round1 (sleepScoreRaw recent) ≤ ((1000 : ℤ) : ℚ) / 10 :=
      round1_le_intDiv10 1000 _ (by push_cast; linarith)
    push_cast at h0
    linarith
  · have ha := abs_round1_sub (sleepScoreRaw recent)
    have hb := abs_round1_sub (durationScore recent)
    have hc := abs_round1_sub (regularityScore recent)
    have hd := abs_round1_sub (hrScore recent)
    have he := abs_round1_sub (hrvScore recent)
    have hf := abs_round1_sub (respScore recent)
    rw [abs_le] at ha hb hc hd he hf
    show |round1 (sleepScoreRaw recent)
        - (40/100 * round1 (durationScore recent) + 20/100 * round1 (regularityScore recent)
            + 15/100 * round1 (hrScore recent) + 15/100 * round1 (hrvScore recent)
            + 10/100 * round1 (respScore recent))| ≤ 1/10
    rw [abs_le]
    have hrw : sleepScoreRaw recent = 40/100 * durationScore recent
        + 20/100 * regularityScore recent + 15/100 * hrScore recent
        + 15/100 * hrvScore recent + 10/100 * respScore recent := rfl
    constructor <;>
      linarith [ha.1, ha.2, hb.1, hb.2, hc.1, hc.2, hd.1, hd.2, he.1, he.2, hf.1, hf.2]

/-- Claim C2 witness: the score-bounds theorem applied to a concrete
one-night window; the duration component of that window lies in [0, 100]. -/
theorem c2_score_bounds_witness :
    0 ≤ durationScore
        [{ date := "2024-11-07", total_sleep_hours := 5, rem_sleep_hours := 1,
           nonrem_sleep_hours := 4, rem_percentage := some 20,
           avg_hr := some 80, avg_hrv := some 30, avg_resp := some 22 }]
    ∧ durationScore
        [{ date := "2024-11-07", total_sleep_hours := 5, rem_sleep_hours := 1,
           nonrem_sleep_hours := 4, rem_percentage := some 20,
           avg_hr := some 80, avg_hrv := some 30, avg_resp := some 22 }] ≤ 100 :=
  (c2_score_bounds
    [{ date := "2024-11-07", total_sleep_hours := 5, rem_sleep_hours := 1,
       nonrem_sleep_hours := 4, rem_percentage := some 20,
       avg_hr := some 80, avg_hrv := some 30, avg_resp := some 22 }]
    (List.cons_ne_nil _ _)).1

/-- Claim C10: for every non-empty rolling window, the final sleep score is
at least 51.5, since the components have floors 30 / 70 / 60 / 70 / 60 and
0.40*30 + 0.20*70 + 0.15*60 + 0.15*70 + 0.10*60 = 51.5. -/
theorem c10_score_floor (recent : List NightAggregate) (h : recent ≠ []) :
    103/2 ≤ sleep_score recent := by
  obtain ⟨hd1, _⟩ := durationScore_bounds recent h
  have hreg := regularityScore_mem recent
  have hreg1 : 70 ≤ regularityScore recent := by
    rcases hreg with h' | h' | h' <;> rw [h'] <;> norm_num
  obtain ⟨hh1, _⟩ := hrScore_bounds recent
  obtain ⟨hv1, _⟩ := hrvScore_bounds recent
  obtain ⟨hr1, _⟩ := respScore_bounds recent
  have hraw : 103/2 ≤ sleepScoreRaw recent := by unfold sleepScoreRaw; linarith
  show 103/2 ≤ round1 (sleepScoreRaw recent)
  have h0 : ((515 : ℤ) : ℚ) / 10 ≤ round1 (sleepScoreRaw recent) :=
    intDiv10_le_round1 515 _ (by push_cast; linarith)
  push_cast at h0
  linarith

/-- Claim C10 witness: the floor theorem applied to a concrete one-night
window. -/
theorem c10_score_floor_witness :
    103/2 ≤ sleep_score
        [{ date := "2024-11-08", total_sleep_hours := 2, rem_sleep_hours := 0,
           nonrem_sleep_hours := 2, rem_percentage := some 0,
           avg_hr := some 120, avg_hrv := some 10, avg_resp := some 30 }] :=
  c10_score_floor
    [{ date := "2024-11-08", total_sleep_hours := 2, rem_sleep_hours := 0,
       nonrem_sleep_hours := 2, rem_percentage := some 0,
       avg_hr := some 120, avg_hrv := some 10, avg_resp := some 30 }]
    (List.cons_ne_nil _ _)

/-- Claim C3 (amended): the repository has two separate stage mappings, not
one supporting both encodings.  app.py's `map_stage` implements the textual
encoding — case-insensitive substring match in the order REM, DEEP, CORE,
then ASLEEP/default — and sends every numeric code 0-5 to the default
"ASLEEP"; importer.py's `SLEEP_VALUE_MAP` implements the numeric encoding,
mapping 0→INBED, 1→ASLEEP, 2→AWARENESS, 3→ASLEEP_CORE, 4→ASLEEP_DEEP,
5→ASLEEP_REM. -/
theorem c3_stage_mappings :
    (∀ s : String, containsSub (upperChars s) ("REM".toList) = true →
        map_stage (some s) = "ASLEEP_REM")
    ∧ (∀ s : String, containsSub (upperChars s) ("REM".toList) = false →
        containsSub (upperChars s) ("DEEP".toList) = true →
        map_stage (some s) = "ASLEEP_DEEP")
    ∧ (∀ s : String, containsSub (upperChars s) ("REM".toList) = false →
        containsSub (upperChars s) ("DEEP".toList) = false →
        containsSub (upperChars s) ("CORE".toList) = true →
        map_stage (some s) = "ASLEEP_CORE")
    ∧ (∀ s : String, containsSub (upperChars s) ("REM".toList) = false →
        containsSub (upperChars s) ("DEEP".toList) = false →
        containsSub (upperChars s) ("CORE".toList) = false →
        map_stage (some s) = "ASLEEP")
    ∧ (importer_stage (some "0") = "INBED" ∧ importer_stage (some "1") = "ASLEEP"
        ∧ importer_stage (some "2") = "AWARENESS"
        ∧ importer_stage (some "3") = "ASLEEP_CORE"
        ∧ importer_stage (some "4") = "ASLEEP_DEEP"
        ∧ importer_stage (some "5") = "ASLEEP_REM")
    ∧ (map_stage (some "0") = "ASLEEP" ∧ map_stage (some "1") = "ASLEEP"
        ∧ map_stage (some "2") = "ASLEEP" ∧ map_stage (some "3") = "ASLEEP"
        ∧ map_stage (some "4") = "ASLEEP" ∧ map_stage (some "5") = "ASLEEP") := by
  refine ⟨?_, ?_, ?_, ?_, by decide, by decide⟩
  · intro s h1
    by_cases hse : s = ""
    · subst hse
      exact absurd h1 (by decide)
    · simp only [map_stage, if_neg hse, h1]
      simp
  · intro s h1 h2
    by_cases hse : s = ""
    · subst hse
      exact absurd h2 (by decide)
    · simp only [map_stage, if_neg hse, h1, h2]
      simp
  · intro s h1 h2 h3
    by_cases hse : s = ""
    · subst hse
      exact absurd h3 (by decide)
    · simp only [map_stage, if_neg hse, h1, h2, h3]
      simp
  · intro s h1 h2 h3
    by_cases hse : s = ""
    · subst hse
      simp [map_stage]
    · simp only [map_stage, if_neg hse, h1, h2, h3]
      simp

/-- Claim C3 witness: the textual-encoding clause of the mapping theorem
applied to a real Apple Health label. -/
theorem c3_stage_mappings_witness :
    map_stage (some "HKCategoryValueSleepAnalysisAsleepREM") = "ASLEEP_REM" :=
  c3_stage_mappings.1 "HKCategoryValueSleepAnalysisAsleepREM" (by decide)

/-- Claim C3 counterexample: the claim as stated is false — under the stage
mapping that the ingest pipeline applies to sleep records (`map_stage`),
the numeric codes are NOT mapped as listed: "0" maps to "ASLEEP", not
"INBED", and "5" maps to "ASLEEP", not "ASLEEP_REM". -/
theorem c3_stage_mappings_counterexample :
    map_stage (some "0") = "ASLEEP" ∧ map_stage (some "5") = "ASLEEP"
    ∧ ("ASLEEP" : String) ≠ "INBED" ∧ ("ASLEEP" : String) ≠ "ASLEEP_REM" := by
  decide

end SleepInsight
